import Mathlib

/-!
# Verification of `paperexport.py` (rotletter18)

A shallow embedding of the parts of `paperexport.py` relevant to the claims of the spec, together with theorems settling those claims.

Conventions of the embedding:
* Python lists / numpy arrays of floats become `List ℚ` (the script does only
  field arithmetic on them).
* astropy tables become Lean lists of records, one structure per table schema.
* Filesystem effects become explicit state passing over `String → Option String`.
* External collaborator functions (astropy joins, numpy reductions) that the
  script calls are modelled by small executable Lean functions whose doc
  comments identify them; the claims proved here do not depend on their
  internal numerics beyond what the source uses.
-/

namespace Paperexport

/-! ## Command-line entry point (`__main__` block, lines 5024-5057)

The script builds `figlist`, an insertion-ordered dictionary from figure-name
strings to figure functions; prints the keys when the positional argument list
is empty; then walks the tokens: `"all"` runs every function in `figlist` in
dictionary order and breaks, any other token is looked up in `figlist`
(a missing key raises `KeyError`, aborting the script). -/

/-- The values of the `figlist` dictionary: the eight registered figure
functions, represented by name. -/
inductive FigName where
  | Bruntt | SH | asterosamp | coolsamp | asterorot | coolrot | rrfracs | binarity
deriving DecidableEq, Repr

/-- The `figlist` dictionary in its insertion order (Python 3.7+ dicts preserve
insertion order). -/
def figlist : List (String × FigName) :=
  [("Bruntt", .Bruntt), ("SH", .SH), ("asterosamp", .asterosamp),
   ("coolsamp", .coolsamp), ("asterorot", .asterorot), ("coolrot", .coolrot),
   ("rrfracs", .rrfracs), ("binarity", .binarity)]

/-- Dictionary lookup `figlist[figname]`; `none` models the `KeyError` raised
on a missing key. -/
def figlistLookup (s : String) : Option FigName :=
  (figlist.find? (fun p => p.1 == s)).map (·.2)

/-- How the `for figname in genfigs` loop terminates: normally, or by an
unhandled `KeyError` on the offending token. -/
inductive ExitStatus where
  | ok
  | keyError (tok : String)
deriving DecidableEq, Repr

/-- The token-processing loop of the `__main__` block: `"all"` invokes every
function of `figlist` in dictionary order and `break`s; any other token is
looked up in `figlist` and invoked, a missing key aborting with `KeyError`.
Returns the sequence of figure functions invoked, in invocation order, and the
way the loop ended. -/
def processFigs : List String → List FigName × ExitStatus
  | [] => ([], .ok)
  | tok :: rest =>
    if tok = "all" then
      (figlist.map Prod.snd, .ok)
    else
      match figlistLookup tok with
      | some f =>
        let r := processFigs rest
        (f :: r.1, r.2)
      | none => ([], .keyError tok)

/-- The observable behaviour of one run of the `__main__` block. -/
structure MainOutput where
  /-- Whether `print(figlist.keys())` ran (it runs iff `args.figs` is empty). -/
  printedFigKeys : Bool
  /-- The figure functions invoked, in order. -/
  invoked : List FigName
  /-- Normal completion, or abort by `KeyError`. -/
  status : ExitStatus
deriving DecidableEq, Repr

/-- The `__main__` block after argument parsing: `figs` is `args.figs` and
`list_figs` is `args.list_figs`.  The source never reads `args.list_figs`
after parsing, which the embedding reflects by taking it as an argument the
body does not use. -/
def mainRun (figs : List String) (list_figs : Bool) : MainOutput :=
  let p := processFigs figs
  { printedFigKeys := figs.isEmpty, invoked := p.1, status := p.2 }

/-- Argument parsing (`argparse` with positional `figs`, `nargs="*"`, and the
boolean flag `--list-figs`): every `"--list-figs"` token sets the flag and is
removed from the positional list. -/
def parseArgs (argv : List String) : List String × Bool :=
  (argv.filter (fun t => t ≠ "--list-figs"), argv.contains "--list-figs")

/-- The entry point: parse the command line, then run the `__main__` body. -/
def entryPoint (argv : List String) : MainOutput :=
  let a := parseArgs argv
  mainRun a.1 a.2

/-- The list `figlist.values()` in dictionary order. -/
def figlistValues : List FigName := figlist.map Prod.snd

/-! ## Rotator tables (`write_rapid_rotator_tables`, lines 96-159, and
`write_marginal_rotator_tables`, lines 161-225)

Both functions take the `["Dwarfs", "Right Statistics Teff"]` subsample of the
McQuillan corrected splitter, filter it by a rotation-period
window, left-join it with the APOGEE DR14 allStar catalog on the 2MASS
designation, keep eight columns, sort ascending by `kepid`, and write a LaTeX
table (first five rows) plus a fixed-width ASCII table (all rows), each with
`overwrite=True` to a fixed path under `TABLE_PATH`. -/

/-- A row of the McQuillan dwarf subsample, restricted to the columns the two
table writers read. -/
structure McqStar where
  /-- Kepler Input Catalog identifier (`kepid`). -/
  kepid : ℕ
  /-- The 2MASS designation (`tm_designation`), the join key against APOGEE. -/
  tm_designation : String
  /-- Effective temperature (`SDSS-Teff`). -/
  sdss_teff : ℚ
  /-- Apparent K magnitude (`kmag`). -/
  kmag : ℚ
  /-- Absolute K magnitude (`M_K`). -/
  m_k : ℚ
  /-- Metallicity-corrected K-band excess (`Corrected K Excess`). -/
  corrected_k_excess : ℚ
  /-- Rotation period in days (`Prot`). -/
  prot : ℚ
deriving DecidableEq, Repr

/-- A row of the APOGEE DR14 allStar catalog, restricted to the columns the two
table writers read. -/
structure ApoStar where
  /-- APOGEE identifier (`APOGEE_ID`), equal to the 2MASS designation. -/
  apogee_id : String
  /-- Iron abundance (`FE_H`). -/
  fe_h : ℚ
deriving DecidableEq, Repr

/-- Modelled collaborator `catalog.join_by_2MASS_key(left, apo,
"tm_designation", "APOGEE_ID", join_type="left")`: a left join, pairing each
left row with its matching APOGEE row when one exists.  Columns of an unmatched
right side come out masked, modelled by `Option`. -/
def join_by_2MASS_key (left : List McqStar) (apo : List ApoStar) :
    List (McqStar × Option ApoStar) :=
  left.map (fun s => (s, apo.find? (fun a => a.apogee_id == s.tm_designation)))

/-- The eight columns kept by both table writers (`abridged_cols`). -/
def abridged_cols : List String :=
  ["kepid", "APOGEE_ID", "SDSS-Teff", "kmag", "M_K", "Corrected K Excess",
   "Prot", "FE_H"]

/-- A row of the abridged table: exactly the eight `abridged_cols` columns.
`APOGEE_ID` and `FE_H` are masked (`none`) for stars without an APOGEE match. -/
structure AbridgedRow where
  /-- Column `kepid`. -/
  kepid : ℕ
  /-- Column `APOGEE_ID`, masked when the left join found no APOGEE row. -/
  apogee_id : Option String
  /-- Column `SDSS-Teff`. -/
  sdss_teff : ℚ
  /-- Column `kmag`. -/
  kmag : ℚ
  /-- Column `M_K`. -/
  m_k : ℚ
  /-- Column `Corrected K Excess`. -/
  corrected_k_excess : ℚ
  /-- Column `Prot`. -/
  prot : ℚ
  /-- Column `FE_H`, masked when the left join found no APOGEE row. -/
  fe_h : Option ℚ
deriving DecidableEq, Repr

/-- Projection of a joined row onto the eight `abridged_cols` columns
(`rapid_table[abridged_cols]`). -/
def abridge (p : McqStar × Option ApoStar) : AbridgedRow :=
  { kepid := p.1.kepid, apogee_id := p.2.map (·.apogee_id),
    sdss_teff := p.1.sdss_teff, kmag := p.1.kmag, m_k := p.1.m_k,
    corrected_k_excess := p.1.corrected_k_excess, prot := p.1.prot,
    fe_h := p.2.map (·.fe_h) }

/-- The period cut of `write_rapid_rotator_tables`:
`np.logical_and(mcq_dwarfs["Prot"] > 1.5, mcq_dwarfs["Prot"] <= 7)`. -/
def rapid_period_cut (s : McqStar) : Bool :=
  (3 / 2 : ℚ) < s.prot && s.prot ≤ 7

/-- The period cut of `write_marginal_rotator_tables`:
`np.logical_and(mcq_dwarfs["Prot"] > 7, mcq_dwarfs["Prot"] < 11)`. -/
def marginal_period_cut (s : McqStar) : Bool :=
  (7 : ℚ) < s.prot && s.prot < 11

/-- The rows of the table built by `write_rapid_rotator_tables` from the
McQuillan dwarf subsample `mcq_dwarfs` and the APOGEE catalog `apo`: filter by
the rapid period cut, left-join with APOGEE, keep the eight abridged columns,
sort ascending by `kepid` (`rapid_table_abridged.sort("kepid")`). -/
def write_rapid_rotator_rows (mcq_dwarfs : List McqStar) (apo : List ApoStar) :
    List AbridgedRow :=
  let mcq_rapid_dwarfs := mcq_dwarfs.filter rapid_period_cut
  let rapid_table := join_by_2MASS_key mcq_rapid_dwarfs apo
  (rapid_table.map abridge).mergeSort (fun a b => a.kepid ≤ b.kepid)

/-- The rows of the table built by `write_marginal_rotator_tables`: the same
pipeline with the marginal period cut. -/
def write_marginal_rotator_rows (mcq_dwarfs : List McqStar) (apo : List ApoStar) :
    List AbridgedRow :=
  let mcq_marginal_dwarfs := mcq_dwarfs.filter marginal_period_cut
  let marginal_table := join_by_2MASS_key mcq_marginal_dwarfs apo
  (marginal_table.map abridge).mergeSort (fun a b => a.kepid ≤ b.kepid)

/-! ## Filesystem effects of the table writers (claim C6)

`TABLE_PATH = PAPER_PATH / "tables"`; each writer calls `Table.write` twice
with `overwrite=True`: the LaTeX table (`table1.tex` / `table2.tex`, first
`latex_length = 5` rows) and the fixed-width ASCII table (`table1.txt` /
`table2.txt`, all rows). -/

/-- The fixed tables directory `TABLE_PATH` (a path constant; its exact value
is environment configuration). -/
def TABLE_PATH : String := "PAPER_PATH/tables"

/-- A filesystem: a partial map from path to file content. -/
def FS : Type := String → Option String

/-- Create `path` with `content`, replacing any previous file there. -/
def fsUpdate (fs : FS) (path content : String) : FS :=
  fun q => if q = path then some content else fs q

/-- Modelled collaborator `astropy.table.Table.write(path, overwrite=ow)`:
writing to an existing path without `overwrite=True` raises `OSError`
(modelled as `none`); otherwise the file is created or replaced. -/
def tableWrite (fs : FS) (path content : String) (overwrite : Bool) :
    Option FS :=
  if (fs path).isSome && !overwrite then none
  else some (fsUpdate fs path content)

/-- The constant `latex_length = 5`: the LaTeX table keeps the first five rows. -/
def latex_length : ℕ := 5

/-- The filesystem effect of `write_rapid_rotator_tables`: write the LaTeX
table of the first `latex_length` rows to `TABLE_PATH/table1.tex` and the full
ASCII table to `TABLE_PATH/table1.txt`, both with `overwrite=True`.  The
serializers `renderLatex`/`renderAscii` stand for the external
`ascii.aastex` and `ascii.fixed_width` writers. -/
def write_rapid_rotator_tables_fs
    (renderLatex renderAscii : List AbridgedRow → String)
    (mcq_dwarfs : List McqStar) (apo : List ApoStar) (fs : FS) : Option FS := do
  let rows := write_rapid_rotator_rows mcq_dwarfs apo
  let latex_table := rows.take latex_length
  let fs ← tableWrite fs (TABLE_PATH ++ "/table1.tex") (renderLatex latex_table) true
  let fs ← tableWrite fs (TABLE_PATH ++ "/table1.txt") (renderAscii rows) true
  some fs

/-- The filesystem effect of `write_marginal_rotator_tables`: as for the rapid
table but with the marginal period cut and paths `table2.tex` / `table2.txt`. -/
def write_marginal_rotator_tables_fs
    (renderLatex renderAscii : List AbridgedRow → String)
    (mcq_dwarfs : List McqStar) (apo : List ApoStar) (fs : FS) : Option FS := do
  let rows := write_marginal_rotator_rows mcq_dwarfs apo
  let latex_table := rows.take latex_length
  let fs ← tableWrite fs (TABLE_PATH ++ "/table2.tex") (renderLatex latex_table) true
  let fs ← tableWrite fs (TABLE_PATH ++ "/table2.txt") (renderAscii rows) true
  some fs

/-! ## `build_filepath` (lines 50-54) and the `write_plot` decorator (lines 56-70)

`build_filepath` joins `toplevel` with `".".join((filename, suffix))` and
returns the string of the resulting path.  `write_plot(filename, suffix,
toplevel)` wraps a figure function `f` in a wrapper that calls
`plt.close("all")`, runs `f`, saves the current figure to
`build_filepath(toplevel, filename, suffix)`, and returns the return value of `f`. -/

/-- Source function `build_filepath(toplevel, filename, suffix)`: `toplevel /
".".join((filename, suffix))` converted to a string.  The pathlib `/`
operator inserts a single separator. -/
def build_filepath (toplevel filename suffix : String) : String :=
  toplevel ++ "/" ++ String.intercalate "." [filename, suffix]

/-- The matplotlib-level events a run of a wrapped figure function emits. -/
inductive PlotEvent where
  /-- Event `plt.close("all")`: close all open figures. -/
  | closeAll
  /-- A drawing call made inside the wrapped figure function (its internal
  control flow is summarised by the sequence of such calls it makes). -/
  | draw (cmd : ℕ)
  /-- Event `plt.savefig(path)`: save the current figure to `path`. -/
  | savefig (path : String)
deriving DecidableEq, Repr

/-- Whether an event is a `savefig`. -/
def PlotEvent.isSave : PlotEvent → Bool
  | .savefig _ => true
  | _ => false

/-- A figure function as `write_plot` sees it: a run is a sequence of drawing
calls (the figure functions of this script draw; none calls `savefig` or
`close` itself) followed by a return value. -/
structure FigRun (α : Type) where
  /-- The drawing calls the function body makes, in order. -/
  draws : List ℕ
  /-- The return value `a` of the function body. -/
  ret : α

/-- The wrapper produced by `write_plot(filename, suffix, toplevel)` applied to
a figure function whose run is `f`: `plt.close("all")`, then the body, then
`plt.savefig(build_filepath(toplevel, filename, suffix))`; the wrapper returns
the return value of the body. -/
def write_plot_wrapper {α : Type} (filename suffix toplevel : String)
    (f : FigRun α) : List PlotEvent × α :=
  (PlotEvent.closeAll :: f.draws.map PlotEvent.draw ++
      [PlotEvent.savefig (build_filepath toplevel filename suffix)],
   f.ret)

/-! ## `running_percentile` (lines 785-794)

```
median_xs = np.zeros(len(xvals)-size)
median_ys = np.zeros(len(yvals)-size)
for start_index, end_index in zip(
        range(0, len(xvals)-size), range(size, len(xvals))):
    median_xs[start_index] = np.mean(xvals[start_index:end_index])
    median_ys[start_index] = np.percentile(
        xvals[start_index:end_index], percentile)
return median_xs, median_ys
```

Both loop bodies read windows of `xvals` only; `yvals` enters only through
`len(yvals)`.  Failure cases are kept: `np.zeros` of a negative length raises
`ValueError`, and when `len(yvals) < len(xvals)` the store into
`median_ys[start_index]` eventually raises `IndexError`; both are `none`. -/

/-- Modelled collaborator `np.mean`: the arithmetic mean of a list. -/
def np_mean (xs : List ℚ) : ℚ := xs.sum / xs.length

/-- Modelled collaborator `np.percentile` with its default linear
interpolation: the value at rank `q / 100 * (n - 1)` of the sorted list,
linearly interpolated between the two neighbouring order statistics. -/
def np_percentile (xs : List ℚ) (q : ℚ) : ℚ :=
  let s := xs.mergeSort (fun a b => a ≤ b)
  if s.length = 0 then 0
  else
    let rank : ℚ := q / 100 * (s.length - 1)
    let i : ℕ := (⌊rank⌋).toNat
    let lo := s.getD i 0
    let hi := s.getD (i + 1) lo
    lo + (rank - (⌊rank⌋ : ℚ)) * (hi - lo)

/-- Source function `running_percentile(xvals, yvals, size, percentile)`.
Here `none` models the
exceptions: `ValueError` when either `np.zeros` length is negative, and
`IndexError` when the loop stores past the end of `median_ys` (that is, when
`len(yvals) < len(xvals)` and the loop runs).  On success `median_xs` and
`median_ys` hold, for each window start, the mean and the `percentile` of the
corresponding `xvals` window; slots of `median_ys` beyond the loop keep their
`np.zeros` value. -/
def running_percentile (xvals yvals : List ℚ) (size : ℕ) (percentile : ℚ) :
    Option (List ℚ × List ℚ) :=
  if size > xvals.length ∨ size > yvals.length then none
  else if yvals.length < xvals.length ∧ size < xvals.length then none
  else
    let nwin := xvals.length - size
    some ((List.range nwin).map (fun i => np_mean ((xvals.drop i).take size)),
      (List.range nwin).map
          (fun i => np_percentile ((xvals.drop i).take size) percentile)
        ++ List.replicate (yvals.length - xvals.length) 0)

/-! ## The scatter-simulation loop of `binary_fit` (lines 1220-1246)

For each `sig` in `np.arange(50, 150, 1)`, the loop fits a double Gaussian
with `fitting.SLSQPLSQFitter()`, prints `fitter.fit_info["exit_mode"]`, and
then: when the exit mode is nonzero it prints `fitter.fit_info["message"]` and
moves on; when it is zero it appends `np.std(kdiff[~binaries])` to
`real_scatter` and `empfitter.stddev_0.value` to `measured_scatter`. -/

/-- What one SLSQP fit of an iteration of the loop produces: the convergence
flag `fit_info["exit_mode"]`, the diagnostic `fit_info["message"]`, and the
fitted single-Gaussian width `stddev_0.value`.  The fitter is an external
collaborator, so the loop is verified for every possible oracle. -/
structure FitOutcome where
  /-- Value `fitter.fit_info["exit_mode"]`: 0 on convergence. -/
  exit_mode : ℤ
  /-- Value `fitter.fit_info["message"]`. -/
  message : String
  /-- Value `empfitter.stddev_0.value`. -/
  stddev_0 : ℚ
deriving DecidableEq, Repr

/-- The grid `np.arange(50, 150, 1)`: the sigmas of the loop. -/
def binary_fit_sigmas : List ℕ := List.range' 50 100

/-- The scatter-simulation loop of `binary_fit`, over the sigma list.  `fit
sig` is the SLSQP outcome at that sigma and `realval sig` is
`np.std(kdiff[~binaries])` for the perturbed temperatures of that iteration.
Returns `(real_scatter, measured_scatter, printed)` where `printed` is the
sequence of lines the loop prints (`exit_mode` every iteration, plus `message`
on nonconvergence).  The loop raises nothing: a nonzero flag only skips the
appends. -/
def binary_fit_scatter_loop (fit : ℕ → FitOutcome) (realval : ℕ → ℚ) :
    List ℕ → List ℚ × List ℚ × List String
  | [] => ([], [], [])
  | sig :: rest =>
    let r := fit sig
    let rec_res := binary_fit_scatter_loop fit realval rest
    if r.exit_mode ≠ 0 then
      (rec_res.1, rec_res.2.1, toString r.exit_mode :: r.message :: rec_res.2.2)
    else
      (realval sig :: rec_res.1, r.stddev_0 :: rec_res.2.1,
       toString r.exit_mode :: rec_res.2.2)

/-! ## Theorems -/

/-- Drawing events are never `savefig` events. -/
theorem filter_isSave_map_draw (draws : List ℕ) :
    (draws.map PlotEvent.draw).filter PlotEvent.isSave = [] := by
  induction draws with
  | nil => rfl
  | cons a l ih => simp [PlotEvent.isSave, ih]

/-- C1: every invocation of a `write_plot`-wrapped figure function first closes
all open figures, then runs the body, then saves exactly one output file, at
the deterministic path `build_filepath(toplevel, filename, suffix)` =
`toplevel/filename.suffix`, whatever drawing calls the body makes; and the
wrapper returns the return value of the body unchanged. -/
theorem write_plot_wrapper_spec {α : Type} (filename suffix toplevel : String)
    (f : FigRun α) :
    (write_plot_wrapper filename suffix toplevel f).1.head? =
      some PlotEvent.closeAll ∧
    (write_plot_wrapper filename suffix toplevel f).1 =
      PlotEvent.closeAll :: (f.draws.map PlotEvent.draw ++
        [PlotEvent.savefig (build_filepath toplevel filename suffix)]) ∧
    (write_plot_wrapper filename suffix toplevel f).1.filter PlotEvent.isSave =
      [PlotEvent.savefig (toplevel ++ "/" ++ filename ++ "." ++ suffix)] ∧
    (write_plot_wrapper filename suffix toplevel f).2 = f.ret := by
  refine ⟨rfl, rfl, ?_, rfl⟩
  show (PlotEvent.closeAll :: (f.draws.map PlotEvent.draw ++
      [PlotEvent.savefig (build_filepath toplevel filename suffix)])).filter
        PlotEvent.isSave = _
  rw [List.filter_cons_of_neg (by simp [PlotEvent.isSave]), List.filter_append,
    filter_isSave_map_draw]
  simp [PlotEvent.isSave, build_filepath, String.intercalate,
    String.intercalate.go, String.append_assoc]

/-- C5: with an empty figure-token list, the entry point prints the available
figure names (the keys of `figlist`) and invokes no figure function. -/
theorem mainRun_nil_prints_keys (list_figs : Bool) :
    mainRun [] list_figs =
      { printedFigKeys := true, invoked := [], status := .ok } := rfl

/-- C10: the `--list-figs` flag has no effect: appending it to any command
line leaves the observable behaviour unchanged, and the `__main__` body gives
the same output whatever the parsed flag value is, because the parsed value is
never read. -/
theorem list_figs_flag_has_no_effect :
    (∀ argv : List String,
      entryPoint (argv ++ ["--list-figs"]) = entryPoint argv) ∧
    (∀ (figs : List String) (b₁ b₂ : Bool), mainRun figs b₁ = mainRun figs b₂) := by
  refine ⟨fun argv => ?_, fun figs b₁ b₂ => rfl⟩
  simp [entryPoint, parseArgs, List.filter_append, mainRun]

/-- C8: `running_percentile` does not depend on the values of `yvals`: two
calls with `yvals` arrays of the same length return identical results, because
both returned arrays are computed from windows of `xvals` alone and `yvals`
contributes only its length. -/
theorem running_percentile_independent_of_yvals
    (xvals y₁ y₂ : List ℚ) (size : ℕ) (percentile : ℚ)
    (h : y₁.length = y₂.length) :
    running_percentile xvals y₁ size percentile =
      running_percentile xvals y₂ size percentile := by
  simp only [running_percentile, h]

/-- Witness for C8 at a concrete input: `yvals = [0, 0, 0]` and
`yvals = [5, 7, 9]` give the same output. -/
theorem running_percentile_independent_of_yvals_witness :
    ([0, 0, 0] : List ℚ).length = ([5, 7, 9] : List ℚ).length ∧
    running_percentile [1, 2, 3] [0, 0, 0] 2 50 =
      running_percentile [1, 2, 3] [5, 7, 9] 2 50 :=
  ⟨rfl, running_percentile_independent_of_yvals [1, 2, 3] [0, 0, 0] [5, 7, 9]
    2 50 rfl⟩

/-- Characterisation of the scatter-simulation loop on any sigma list: the two
scatter lists are exactly the converged iterations, in order, and every
nonconverged iteration leaves its diagnostic message in the printed output. -/
theorem binary_fit_scatter_loop_characterization (fit : ℕ → FitOutcome)
    (realval : ℕ → ℚ) (sigmas : List ℕ) :
    (binary_fit_scatter_loop fit realval sigmas).1 =
      (sigmas.filter (fun s => (fit s).exit_mode == 0)).map realval ∧
    (binary_fit_scatter_loop fit realval sigmas).2.1 =
      (sigmas.filter (fun s => (fit s).exit_mode == 0)).map
        (fun s => (fit s).stddev_0) ∧
    ∀ s ∈ sigmas, (fit s).exit_mode ≠ 0 →
      (fit s).message ∈ (binary_fit_scatter_loop fit realval sigmas).2.2 := by
  induction sigmas with
  | nil => simp [binary_fit_scatter_loop]
  | cons sig rest ih =>
    obtain ⟨ih₁, ih₂, ih₃⟩ := ih
    by_cases h : (fit sig).exit_mode = 0
    · refine ⟨?_, ?_, ?_⟩
      · simp [binary_fit_scatter_loop, h, ih₁]
      · simp [binary_fit_scatter_loop, h, ih₂]
      · intro s hs hexit
        rcases List.mem_cons.mp hs with rfl | hs'
        · exact absurd h hexit
        · have hmem := ih₃ s hs' hexit
          simp only [binary_fit_scatter_loop, h, ne_eq, not_true_eq_false,
            if_false, List.mem_cons]
          exact Or.inr hmem
    · refine ⟨?_, ?_, ?_⟩
      · simp [binary_fit_scatter_loop, h, ih₁]
      · simp [binary_fit_scatter_loop, h, ih₂]
      · intro s hs hexit
        rcases List.mem_cons.mp hs with rfl | hs'
        · simp [binary_fit_scatter_loop, h]
        · have hmem := ih₃ s hs' hexit
          simp only [binary_fit_scatter_loop, h, ne_eq, not_false_eq_true,
            if_true, List.mem_cons]
          exact Or.inr (Or.inr hmem)

/-- C4: over the sigma grid `np.arange(50, 150, 1)` of `binary_fit`, an
iteration whose SLSQP fit reports a nonzero `fit_info["exit_mode"]` has its
diagnostic message printed and contributes nothing to `real_scatter` or
`measured_scatter`; the two arrays used by the subsequent linear fit hold
exactly the values appended by the iterations whose flag is zero, in order.
The loop itself is a total function of the fit outcomes: no outcome raises. -/
theorem binary_fit_nonconvergence_skips_append (fit : ℕ → FitOutcome)
    (realval : ℕ → ℚ) :
    (binary_fit_scatter_loop fit realval binary_fit_sigmas).1 =
      (binary_fit_sigmas.filter (fun s => (fit s).exit_mode == 0)).map realval ∧
    (binary_fit_scatter_loop fit realval binary_fit_sigmas).2.1 =
      (binary_fit_sigmas.filter (fun s => (fit s).exit_mode == 0)).map
        (fun s => (fit s).stddev_0) ∧
    ∀ s ∈ binary_fit_sigmas, (fit s).exit_mode ≠ 0 →
      (fit s).message ∈
        (binary_fit_scatter_loop fit realval binary_fit_sigmas).2.2 :=
  binary_fit_scatter_loop_characterization fit realval binary_fit_sigmas

/-- A concrete fit oracle for the witness: nonconvergence (exit mode 8) at
sigma 50, convergence everywhere else. -/
def fitOracle₀ : ℕ → FitOutcome := fun s =>
  if s = 50 then
    { exit_mode := 8, message := "Positive directional derivative", stddev_0 := 0 }
  else
    { exit_mode := 0, message := "", stddev_0 := 1 / 10 }

/-- Witness for C4: with `fitOracle₀`, iteration 50 fails to converge and its
diagnostic message appears in the printed output. -/
theorem binary_fit_nonconvergence_skips_append_witness :
    50 ∈ binary_fit_sigmas ∧ (fitOracle₀ 50).exit_mode ≠ 0 ∧
    (fitOracle₀ 50).message ∈
      (binary_fit_scatter_loop fitOracle₀ (fun _ => 2) binary_fit_sigmas).2.2 :=
  ⟨by decide, by decide,
    (binary_fit_nonconvergence_skips_append fitOracle₀ (fun _ => 2)).2.2 50
      (by decide) (by decide)⟩

/-- The comparison used to sort the abridged tables is transitive and total,
so `mergeSort` sorts by it. -/
theorem sorted_mergeSort_kepid (l : List AbridgedRow) :
    (l.mergeSort (fun a b => a.kepid ≤ b.kepid)).Pairwise
      (fun a b => a.kepid ≤ b.kepid) := by
  have h := @List.sorted_mergeSort AbridgedRow
    (fun a b => decide (a.kepid ≤ b.kepid))
    (fun a b c h₁ h₂ => by simp at *; omega)
    (fun a b => by simp; omega) l
  simpa using h

/-- C3: for any dwarf subsample and APOGEE catalog, the table built by
`write_rapid_rotator_tables` is sorted ascending by `kepid`, its rows are (a
permutation of, hence exactly) the subsample stars with `Prot > 1.5` and
`Prot ≤ 7`, each left-joined with its APOGEE row and projected onto the
abridged columns, and the column list is exactly the eight enumerated columns,
without repetition. -/
theorem write_rapid_rotator_table_spec (mcq_dwarfs : List McqStar)
    (apo : List ApoStar) :
    (write_rapid_rotator_rows mcq_dwarfs apo).Pairwise
      (fun a b => a.kepid ≤ b.kepid) ∧
    (write_rapid_rotator_rows mcq_dwarfs apo).Perm
      ((mcq_dwarfs.filter
          (fun s => decide ((3 / 2 : ℚ) < s.prot ∧ s.prot ≤ 7))).map
        (fun s => abridge
          (s, apo.find? (fun a => a.apogee_id == s.tm_designation)))) ∧
    abridged_cols = ["kepid", "APOGEE_ID", "SDSS-Teff", "kmag", "M_K",
      "Corrected K Excess", "Prot", "FE_H"] ∧
    abridged_cols.length = 8 ∧ abridged_cols.Nodup := by
  refine ⟨sorted_mergeSort_kepid _, ?_, rfl, rfl, by decide⟩
  have hcut : (fun s : McqStar => decide ((3 / 2 : ℚ) < s.prot ∧ s.prot ≤ 7)) =
      rapid_period_cut := by
    funext s
    simp [rapid_period_cut]
  have hX : (join_by_2MASS_key (mcq_dwarfs.filter rapid_period_cut) apo).map
        abridge =
      (mcq_dwarfs.filter
          (fun s => decide ((3 / 2 : ℚ) < s.prot ∧ s.prot ≤ 7))).map
        (fun s => abridge
          (s, apo.find? (fun a => a.apogee_id == s.tm_designation))) := by
    rw [hcut]
    simp [join_by_2MASS_key, List.map_map]
  have hperm := List.mergeSort_perm
    ((join_by_2MASS_key (mcq_dwarfs.filter rapid_period_cut) apo).map abridge)
    (fun a b => a.kepid ≤ b.kepid)
  exact hperm.trans (by rw [hX])

/-- Every row of the rapid-rotator table has `1.5 < Prot ≤ 7`. -/
theorem prot_of_mem_rapid (mcq_dwarfs : List McqStar) (apo : List ApoStar)
    (r : AbridgedRow) (h : r ∈ write_rapid_rotator_rows mcq_dwarfs apo) :
    (3 / 2 : ℚ) < r.prot ∧ r.prot ≤ 7 := by
  simp only [write_rapid_rotator_rows, List.mem_mergeSort, List.mem_map,
    join_by_2MASS_key, List.mem_filter, rapid_period_cut] at h
  obtain ⟨p, ⟨s, ⟨hs, hcut⟩, rfl⟩, rfl⟩ := h
  simpa [abridge] using hcut

/-- Every row of the marginal-rotator table has `7 < Prot < 11`. -/
theorem prot_of_mem_marginal (mcq_dwarfs : List McqStar) (apo : List ApoStar)
    (r : AbridgedRow) (h : r ∈ write_marginal_rotator_rows mcq_dwarfs apo) :
    (7 : ℚ) < r.prot ∧ r.prot < 11 := by
  simp only [write_marginal_rotator_rows, List.mem_mergeSort, List.mem_map,
    join_by_2MASS_key, List.mem_filter, marginal_period_cut] at h
  obtain ⟨p, ⟨s, ⟨hs, hcut⟩, rfl⟩, rfl⟩ := h
  simpa [abridge] using hcut

/-- C9: the period selections of the two table writers are disjoint: the rapid
table keeps `1.5 < Prot ≤ 7`, the marginal table keeps `7 < Prot < 11`, so no
row can appear in both tables — for any input subsamples and catalogs. -/
theorem rapid_marginal_tables_disjoint (mcq₁ mcq₂ : List McqStar)
    (apo₁ apo₂ : List ApoStar) (r : AbridgedRow)
    (h : r ∈ write_rapid_rotator_rows mcq₁ apo₁) :
    r ∉ write_marginal_rotator_rows mcq₂ apo₂ := by
  intro hm
  have h₁ := prot_of_mem_rapid mcq₁ apo₁ r h
  have h₂ := prot_of_mem_marginal mcq₂ apo₂ r hm
  linarith [h₁.2, h₂.1]

/-- A concrete McQuillan star for the C9 witness: `Prot = 2` days. -/
def mcqStar₀ : McqStar :=
  { kepid := 7, tm_designation := "2M19000000+4000000", sdss_teff := 4500,
    kmag := 10, m_k := 3, corrected_k_excess := 0, prot := 2 }

/-- The abridged row `mcqStar₀` produces when it has no APOGEE match. -/
def abridgedRow₀ : AbridgedRow := abridge (mcqStar₀, none)

/-- Witness for C9: the `Prot = 2` star lands in the rapid table and, by the
theorem, not in the marginal table. -/
theorem rapid_marginal_tables_disjoint_witness :
    abridgedRow₀ ∈ write_rapid_rotator_rows [mcqStar₀] [] ∧
    abridgedRow₀ ∉ write_marginal_rotator_rows [mcqStar₀] [] :=
  have hmem : abridgedRow₀ ∈ write_rapid_rotator_rows [mcqStar₀] [] := by
    simp only [write_rapid_rotator_rows, List.mem_mergeSort, join_by_2MASS_key,
      rapid_period_cut, List.mem_map, List.mem_filter, abridgedRow₀]
    exact ⟨(mcqStar₀, none), ⟨mcqStar₀, ⟨List.mem_singleton_self _,
      by norm_num [mcqStar₀]⟩, rfl⟩, rfl⟩
  ⟨hmem, rapid_marginal_tables_disjoint [mcqStar₀] [mcqStar₀] [] [] abridgedRow₀
    hmem⟩

/-- Writing with `overwrite=True` always succeeds, replacing the file. -/
theorem tableWrite_overwrite_eq (fs : FS) (p c : String) :
    tableWrite fs p c true = some (fsUpdate fs p c) := by
  simp [tableWrite]

/-- Re-applying the same pair of file updates changes nothing. -/
theorem fsUpdate_pair_idem (fs : FS) (p₁ c₁ p₂ c₂ : String) :
    fsUpdate (fsUpdate (fsUpdate (fsUpdate fs p₁ c₁) p₂ c₂) p₁ c₁) p₂ c₂ =
      fsUpdate (fsUpdate fs p₁ c₁) p₂ c₂ := by
  funext q
  simp only [fsUpdate]
  split_ifs <;> rfl

/-- The full filesystem effect of `write_rapid_rotator_tables`: both writes
succeed (each passes `overwrite=True`), leaving `table1.tex` and `table1.txt`
with contents determined by the inputs alone. -/
theorem write_rapid_rotator_tables_fs_eq
    (renderLatex renderAscii : List AbridgedRow → String)
    (mcq_dwarfs : List McqStar) (apo : List ApoStar) (fs : FS) :
    write_rapid_rotator_tables_fs renderLatex renderAscii mcq_dwarfs apo fs =
      some (fsUpdate
        (fsUpdate fs (TABLE_PATH ++ "/table1.tex")
          (renderLatex ((write_rapid_rotator_rows mcq_dwarfs apo).take
            latex_length)))
        (TABLE_PATH ++ "/table1.txt")
        (renderAscii (write_rapid_rotator_rows mcq_dwarfs apo))) := by
  simp [write_rapid_rotator_tables_fs, tableWrite_overwrite_eq]

/-- The full filesystem effect of `write_marginal_rotator_tables`. -/
theorem write_marginal_rotator_tables_fs_eq
    (renderLatex renderAscii : List AbridgedRow → String)
    (mcq_dwarfs : List McqStar) (apo : List ApoStar) (fs : FS) :
    write_marginal_rotator_tables_fs renderLatex renderAscii mcq_dwarfs apo fs =
      some (fsUpdate
        (fsUpdate fs (TABLE_PATH ++ "/table2.tex")
          (renderLatex ((write_marginal_rotator_rows mcq_dwarfs apo).take
            latex_length)))
        (TABLE_PATH ++ "/table2.txt")
        (renderAscii (write_marginal_rotator_rows mcq_dwarfs apo))) := by
  simp [write_marginal_rotator_tables_fs, tableWrite_overwrite_eq]

/-- C6: running a table writer a second time on the same inputs succeeds
rather than failing on the existing files — every table write passes
`overwrite=True` to a fixed deterministic path — and the regenerated output
replaces the previous one, so running twice leaves exactly the files of a
single run.  This holds for any starting filesystem, in particular one already
holding the output files. -/
theorem table_writers_idempotent
    (renderLatex renderAscii renderLatex₂ renderAscii₂ :
      List AbridgedRow → String)
    (mcq_dwarfs : List McqStar) (apo : List ApoStar) (fs : FS) :
    (∃ fs₁,
      write_rapid_rotator_tables_fs renderLatex renderAscii mcq_dwarfs apo fs =
        some fs₁ ∧
      write_rapid_rotator_tables_fs renderLatex renderAscii mcq_dwarfs apo fs₁ =
        some fs₁) ∧
    (∃ fs₂,
      write_marginal_rotator_tables_fs renderLatex₂ renderAscii₂ mcq_dwarfs apo
        fs = some fs₂ ∧
      write_marginal_rotator_tables_fs renderLatex₂ renderAscii₂ mcq_dwarfs apo
        fs₂ = some fs₂) := by
  constructor
  · refine ⟨_, write_rapid_rotator_tables_fs_eq renderLatex renderAscii
      mcq_dwarfs apo fs, ?_⟩
    rw [write_rapid_rotator_tables_fs_eq, fsUpdate_pair_idem]
  · refine ⟨_, write_marginal_rotator_tables_fs_eq renderLatex₂ renderAscii₂
      mcq_dwarfs apo fs, ?_⟩
    rw [write_marginal_rotator_tables_fs_eq, fsUpdate_pair_idem]

/-- Processing a prefix of valid non-`"all"` tokens invokes exactly the
functions they name, in order, and continues with the remaining tokens. -/
theorem processFigs_append_of_valid (pre rest : List String)
    (hkeys : ∀ t ∈ pre, (figlistLookup t).isSome) (hall : "all" ∉ pre) :
    processFigs (pre ++ rest) =
      (pre.filterMap figlistLookup ++ (processFigs rest).1,
       (processFigs rest).2) := by
  induction pre with
  | nil => simp [processFigs]
  | cons t pre ih =>
    have ht : t ≠ "all" := fun h => hall (h ▸ List.mem_cons_self t pre)
    obtain ⟨f, hf⟩ := Option.isSome_iff_exists.mp
      (hkeys t (List.mem_cons_self t pre))
    have ihr := ih (fun u hu => hkeys u (List.mem_cons_of_mem t hu))
      (fun hu => hall (List.mem_cons_of_mem t hu))
    simp [processFigs, ht, hf, ihr, List.filterMap_cons]

/-- Counterexample to C2 as stated: `["bogus", "all"]` contains the token
`"all"`, yet the run invokes no figure function at all — the `KeyError` on
the earlier invalid token aborts the script before the `"all"` pass. -/
theorem all_token_claim_counterexample :
    "all" ∈ ["bogus", "all"] ∧
    (mainRun ["bogus", "all"] false).invoked = [] ∧
    (mainRun ["bogus", "all"] false).status = .keyError "bogus" := by
  refine ⟨by simp, rfl, rfl⟩

/-- C2 (amended: the tokens preceding the first `"all"` must all be keys of
`figlist`): when every token before `"all"` is a valid key, the run processes
those tokens, then the `"all"` pass invokes every function of `figlist`,
each exactly once, in dictionary order (`Bruntt`, `SH`, `asterosamp`,
`coolsamp`, `asterorot`, `coolrot`, `rrfracs`, `binarity`), completes
normally, and no token after `"all"` is processed (the output is the same as
if the argument list ended at `"all"`). -/
theorem all_token_runs_all_figs (pre post : List String) (list_figs : Bool)
    (hkeys : ∀ t ∈ pre, (figlistLookup t).isSome) (hall : "all" ∉ pre) :
    (mainRun (pre ++ "all" :: post) list_figs).invoked =
      pre.filterMap figlistLookup ++ figlistValues ∧
    (mainRun (pre ++ "all" :: post) list_figs).status = .ok ∧
    figlistValues = [.Bruntt, .SH, .asterosamp, .coolsamp, .asterorot,
      .coolrot, .rrfracs, .binarity] ∧
    (∀ fg : FigName, figlistValues.count fg = 1) ∧
    mainRun (pre ++ "all" :: post) list_figs =
      mainRun (pre ++ ["all"]) list_figs := by
  have h₁ := processFigs_append_of_valid pre ("all" :: post) hkeys hall
  have h₂ := processFigs_append_of_valid pre ["all"] hkeys hall
  have hallrun : ∀ post' : List String,
      processFigs ("all" :: post') = (figlistValues, .ok) := by
    intro post'
    simp [processFigs, figlistValues]
  refine ⟨?_, ?_, by decide, fun fg => by cases fg <;> decide, ?_⟩
  · simp [mainRun, h₁, hallrun]
  · simp [mainRun, h₁, hallrun]
  · simp [mainRun, h₁, h₂, hallrun]
    cases pre <;> simp [List.isEmpty]

/-- Witness for C2 (amended) at `pre = ["Bruntt"]`, `post = ["junk"]`. -/
theorem all_token_runs_all_figs_witness :
    (∀ t ∈ ["Bruntt"], (figlistLookup t).isSome) ∧
    ("all" ∉ (["Bruntt"] : List String)) ∧
    (mainRun (["Bruntt"] ++ "all" :: ["junk"]) false).invoked =
      (["Bruntt"] : List String).filterMap figlistLookup ++ figlistValues :=
  ⟨by decide, by decide,
    (all_token_runs_all_figs ["Bruntt"] ["junk"] false (by decide)
      (by decide)).1⟩

/-- Counterexample to C7 as stated: `"bogus"` is a token of
`["all", "bogus"]` that is neither `"all"` nor a key of `figlist`, yet the
run completes normally — the `"all"` pass `break`s out of the loop before the
invalid token is ever looked up. -/
theorem invalid_token_claim_counterexample :
    figlistLookup "bogus" = none ∧ ("bogus" : String) ≠ "all" ∧
    (mainRun ["all", "bogus"] false).status = .ok := by
  refine ⟨rfl, by decide, rfl⟩

/-- C7 (amended: the invalid token must be the first problematic one — every
earlier token a key of `figlist` and none of them `"all"`): the run invokes
exactly the figure functions named by the earlier tokens, in order, to
completion, and then aborts with an unhandled `KeyError` on the invalid
token; no recovery or retry happens and no later token is processed. -/
theorem invalid_token_aborts (pre post : List String) (tok : String)
    (list_figs : Bool)
    (hkeys : ∀ t ∈ pre, (figlistLookup t).isSome) (hall : "all" ∉ pre)
    (htok : figlistLookup tok = none) (htokall : tok ≠ "all") :
    mainRun (pre ++ tok :: post) list_figs =
      { printedFigKeys := false,
        invoked := pre.filterMap figlistLookup,
        status := .keyError tok } := by
  have h₁ := processFigs_append_of_valid pre (tok :: post) hkeys hall
  have h₂ : processFigs (tok :: post) = ([], .keyError tok) := by
    simp [processFigs, htokall, htok]
  simp [mainRun, h₁, h₂]

/-- Witness for C7 (amended) at `pre = ["SH"]`, `tok = "zzz"`,
`post = ["Bruntt"]`. -/
theorem invalid_token_aborts_witness :
    (∀ t ∈ ["SH"], (figlistLookup t).isSome) ∧
    ("all" ∉ (["SH"] : List String)) ∧
    figlistLookup "zzz" = none ∧ ("zzz" : String) ≠ "all" ∧
    mainRun (["SH"] ++ "zzz" :: ["Bruntt"]) true =
      { printedFigKeys := false,
        invoked := (["SH"] : List String).filterMap figlistLookup,
        status := .keyError "zzz" } :=
  ⟨by decide, by decide, rfl, by decide,
    invalid_token_aborts ["SH"] ["Bruntt"] "zzz" true (by decide) (by decide)
      rfl (by decide)⟩

end Paperexport
